import Mathlib

/-!
Verification of the falcon-provider-rate-limit rate limiting engine.

The development shallowly embeds the two source modules
(`falcon_provider_rate_limit/utils.py` and
`falcon_provider_rate_limit/middleware.py`).  The key/value backends
(memcache, redis) are modelled as a store mapping keys to an optional
integer value and an optional absolute expiry timestamp; every operation
is evaluated at an explicit current time `now`.  Machine integers are
modelled as `Int` (Python integers are unbounded, so no wraparound is
needed).  Store failures are out of scope: every claim below concerns a
single sequential execution against a reachable store.
-/

/-- A key/value store with TTL semantics: for each key, an optional
integer value and an optional absolute expiry epoch timestamp. -/
structure Store where
  val : String → Option Int
  exp : String → Option Int

/-- The store with no keys. -/
def emptyStore : Store := { val := fun _ => none, exp := fun _ => none }

/-- Memcache `set(key, value, expire)`: store the value with an absolute
expiry of `now + expire`. -/
def memSet (st : Store) (now : Int) (key : String) (value : Int) (expire : Int) : Store :=
  { val := fun k => if k = key then some value else st.val k
    exp := fun k => if k = key then some (now + expire) else st.exp k }

/-- Memcache `incr(key, delta)`: increment an existing key, leaving the
expiry unchanged; a missing key is left untouched. -/
def memIncr (st : Store) (key : String) (delta : Int) : Store :=
  match st.val key with
  | none => st
  | some v =>
    { val := fun k => if k = key then some (v + delta) else st.val k
      exp := st.exp }

/-- Redis `SETEX key seconds value`: store the value with an absolute
expiry of `now + seconds`. -/
def redisSetex (st : Store) (now : Int) (key : String) (seconds : Int) (value : Int) : Store :=
  { val := fun k => if k = key then some value else st.val k
    exp := fun k => if k = key then some (now + seconds) else st.exp k }

/-- Redis `INCRBY key delta`: increment the key, creating it at 0 first
when absent; the expiry is not touched (a created key has none). -/
def redisIncrby (st : Store) (key : String) (delta : Int) : Store :=
  { val := fun k => if k = key then some ((st.val k).getD 0 + delta) else st.val k
    exp := st.exp }

/-- Redis `EXPIRE key seconds`: set the expiry of an existing key to
`now + seconds`; a missing key is left untouched. -/
def redisExpire (st : Store) (now : Int) (key : String) (seconds : Int) : Store :=
  if (st.val key).isSome then
    { val := st.val, exp := fun k => if k = key then some (now + seconds) else st.exp k }
  else st

/-- Redis `TTL key`: -2 when the key is absent, -1 when it has no expiry,
otherwise the remaining seconds. -/
def redisTtl (st : Store) (now : Int) (key : String) : Int :=
  match st.val key with
  | none => -2
  | some _ =>
    match st.exp key with
    | none => -1
    | some e => e - now

/-- The per second DoS bucket key, `f"{client_key}:{ts}"` in the source. -/
def dosKey (client_key : String) (ts : Int) : String :=
  client_key ++ ":" ++ toString ts

/-- The backend dependent operations of a rate limit provider, one field
per abstract method of `RateLimitProvider` that the child classes
implement.  Each operation takes the store (and the current time where
the source reads the clock) and returns a value or an updated store. -/
structure Provider where
  client_count : Store → String → Int
  client_count_incr : Store → String → Store
  client_count_set : Store → Int → Int → String → Store
  client_key_expires : Store → Int → String → Int
  dos_count : Store → Int → String → Int
  dos_count_incr : Store → Int → String → Store

/-- `MemcacheRateLimitProvider`: counters via memcache get/incr/set; the
expiry of the quota counter is mirrored in an auxiliary `-expires` key
because memcache cannot report TTLs. -/
def memcacheProvider : Provider :=
  { client_count := fun st key => (st.val key).getD 0
    client_count_incr := fun st key => memIncr st key 1
    client_count_set := fun st now limit_window key =>
      memSet (memSet st now key 1 (limit_window * 60)) now
        (key ++ "-expires") (now + limit_window * 60) (limit_window * 60)
    client_key_expires := fun st _ key => (st.val (key ++ "-expires")).getD 0
    dos_count := fun st now key => (st.val (dosKey key now)).getD 0
    dos_count_incr := fun st now key =>
      if (st.val (dosKey key now)).isNone then
        memIncr (memSet st now (dosKey key now) 0 1) (dosKey key now) 1
      else
        memIncr st (dosKey key now) 1 }

/-- `RedisRateLimitProvider`: counters via redis get/incrby/setex, quota
expiry read back through TTL, DoS bucket incremented with a 5 second
expire. -/
def redisProvider : Provider :=
  { client_count := fun st key => (st.val key).getD 0
    client_count_incr := fun st key => redisIncrby st key 1
    client_count_set := fun st now limit_window key =>
      redisSetex st now key (limit_window * 60) 1
    client_key_expires := fun st now key =>
      now + (if redisTtl st now key = -1 ∨ redisTtl st now key = -2 then 0
             else redisTtl st now key)
    dos_count := fun st now key => (st.val (dosKey key now)).getD 0
    dos_count_incr := fun st now key =>
      redisExpire (redisIncrby st (dosKey key now) 1) now (dosKey key now) 5 }

/-- The rate limit control dictionary.  Each field is a Python dict entry:
the outer `Option` records whether the key is present at all, the inner
`Option` records a possibly null stored value. -/
structure ControlDict where
  enabled : Option (Option Bool)
  authenticated_limit : Option (Option Int)
  dos_limit : Option (Option Int)
  global_limit : Option (Option Bool)
  limit_window : Option (Option Int)
  unauthenticated_limit : Option (Option Int)

/-- The built in global defaults from `RateLimitProvider.__init__`. -/
def defaultControl : ControlDict :=
  { enabled := some (some true)
    authenticated_limit := some none
    dos_limit := some none
    global_limit := some (some true)
    limit_window := some (some 30)
    unauthenticated_limit := some none }

/-- A route override that supplies no keys (the empty dict). -/
def emptyOverride : ControlDict :=
  { enabled := none, authenticated_limit := none, dos_limit := none
    global_limit := none, limit_window := none, unauthenticated_limit := none }

/-- One key of `dict.update`: the override entry wins when present. -/
def updKey (base override : Option α) : Option α :=
  match override with
  | some v => some v
  | none => base

/-- `dict(base).update(override)` over the six control keys, as performed
by `RateLimitProvider.rate_limit_control`. -/
def updateControl (base override : ControlDict) : ControlDict :=
  { enabled := updKey base.enabled override.enabled
    authenticated_limit := updKey base.authenticated_limit override.authenticated_limit
    dos_limit := updKey base.dos_limit override.dos_limit
    global_limit := updKey base.global_limit override.global_limit
    limit_window := updKey base.limit_window override.limit_window
    unauthenticated_limit := updKey base.unauthenticated_limit override.unauthenticated_limit }

/-- Python `dict.get(key)`: `None` when the key is absent, else the
stored (possibly null) value. -/
def dget (entry : Option (Option α)) : Option α :=
  match entry with
  | none => none
  | some v => v

/-- `RateLimitProvider.authenticated_limit`: `get(...) or 0`. -/
def authenticated_limit (d : ControlDict) : Int :=
  (dget d.authenticated_limit).getD 0

/-- `RateLimitProvider.unauthenticated_limit`: `get(...) or 0`. -/
def unauthenticated_limit (d : ControlDict) : Int :=
  (dget d.unauthenticated_limit).getD 0

/-- `RateLimitProvider.dos_limit`: `get(...) or 0`. -/
def dos_limit (d : ControlDict) : Int :=
  (dget d.dos_limit).getD 0

/-- `RateLimitProvider.enabled`: the configured value (`or False`), forced
to false when all three limits resolve to 0. -/
def enabled (d : ControlDict) : Bool :=
  let e := (dget d.enabled).getD false
  if e = true ∧ dos_limit d = 0 ∧ authenticated_limit d = 0 ∧ unauthenticated_limit d = 0 then
    false
  else e

/-- `RateLimitProvider.global_limit`: `get('global_limit', True)`, read
with Python truthiness by its caller. -/
def global_limit (d : ControlDict) : Bool :=
  match d.global_limit with
  | none => true
  | some none => false
  | some (some b) => b

/-- `RateLimitProvider.limit_window`: `int(get('limit_window')) or 15`.
`int(None)` raises a TypeError, modelled as `none`. -/
def limit_window (d : ControlDict) : Option Int :=
  match dget d.limit_window with
  | none => none
  | some v => some (if v = 0 then 15 else v)

/-- The request metadata the engine consumes: the forwarded address chain
(`req.access_route`), the peer address (`req.remote_addr`), the path, the
value of the configured client key attribute on `req.context` when that
attribute exists, and whether the configured auth attribute is present
and truthy on `req.context`. -/
structure Request where
  access_route : List String
  remote_addr : String
  path : String
  ctxClientKey : Option String
  ctxAuthTruthy : Bool

/-- `RateLimitProvider.authenticated`. -/
def authenticated (req : Request) : Bool :=
  req.ctxAuthTruthy

/-- `RateLimitProvider.limit`: the unauthenticated limit, replaced by the
authenticated limit for an authenticated request. -/
def limit (d : ControlDict) (req : Request) : Int :=
  if authenticated req then authenticated_limit d else unauthenticated_limit d

/-- `RateLimitProvider.client_key`.  `ckAttr` is the constructor argument
`client_key` (the name of the context attribute holding an explicit
identity); an empty attribute name is falsy and disables the lookup.
Values taken from the context are already strings after `str(...)`. -/
def client_key (ckAttr : Option String) (d : ControlDict) (req : Request) : String :=
  let base :=
    match req.access_route with
    | [] => req.remote_addr
    | a :: _ => if a = "" then req.remote_addr else a
  let base :=
    match ckAttr with
    | none => base
    | some nm =>
      if nm = "" then base
      else
        match req.ctxClientKey with
        | none => base
        | some v => if v = "" then base else v
  if global_limit d then base else base ++ req.path

/-- The dict returned by `dos_limit_reached`. -/
structure DLR where
  rate_limit_reached : Bool
  rate_limit_remaining : Int
  rate_limit_reset : Int
deriving DecidableEq

/-- The dict returned by `rate_limit_reached`. -/
structure RLR where
  rate_limit_reached : Bool
  rate_limit_remaining : Int
  rate_limit_reset : Int
  retry_after : Int
deriving DecidableEq

/-- `RateLimitProvider.dos_limit_reached`, returning the result dict and
the updated store. -/
def dos_limit_reached (p : Provider) (dosLimit : Int) (now : Int) (st : Store)
    (key : String) : DLR × Store :=
  let dos_count := p.dos_count st now key
  let dlr : DLR :=
    { rate_limit_reached := false
      rate_limit_remaining := dosLimit - dos_count
      rate_limit_reset := now + 1 }
  if dos_count + 1 > dosLimit then
    ({ dlr with rate_limit_reached := true }, st)
  else
    ({ dlr with rate_limit_remaining := dlr.rate_limit_remaining - 1 },
     p.dos_count_incr st now key)

/-- `RateLimitProvider.rate_limit_reached`, returning the result dict and
the updated store.  `lw` is the resolved `limit_window` used by
`client_count_set`.  The second branch re-reads the count exactly as the
source does. -/
def rate_limit_reached (p : Provider) (lw : Int) (now : Int) (st : Store)
    (key : String) (lim : Int) : RLR × Store :=
  let client_count := p.client_count st key
  let rlr : RLR :=
    { rate_limit_reached := false
      rate_limit_remaining := lim - client_count
      rate_limit_reset := p.client_key_expires st now key
      retry_after := p.client_key_expires st now key - now }
  if client_count = 0 then
    ({ rlr with rate_limit_remaining := rlr.rate_limit_remaining - 1 },
     p.client_count_set st now lw key)
  else if p.client_count st key + 1 > lim then
    ({ rlr with rate_limit_reached := true }, st)
  else
    ({ rlr with rate_limit_remaining := rlr.rate_limit_remaining - 1 },
     p.client_count_incr st key)

/-- The rate limit entries the middleware records on `resp.context`,
plus the `resp.complete` short circuit flag. -/
structure RespContext where
  rate_limit : Option Int := none
  rate_limit_reached : Option Bool := none
  rate_limit_remaining : Option Int := none
  rate_limit_reset : Option Int := none
  retry_after : Option Int := none
  rate_limit_description : Option String := none
  complete : Bool := false
deriving DecidableEq

/-- Python truthiness of an optional bool read with `dict.get`. -/
def truthyB : Option Bool → Bool
  | some b => b
  | none => false

/-- Python truthiness of an optional int read with `dict.get`. -/
def truthyI : Option Int → Bool
  | some v => if v = 0 then false else true
  | none => false

/-- The DoS rejection description stamped by `process_resource`. -/
def dosDesc (d : Int) : String :=
  "Client exceeded rate limit of " ++ toString d ++ " requests per seconds."

/-- The quota rejection description stamped by `process_resource`. -/
def quotaDesc (lim lw : Int) : String :=
  "Client exceeded rate limit of " ++ toString lim ++ " requests per "
    ++ toString lw ++ " minutes."

/-- `RateLimitMiddleware.process_resource`: merge the route override onto
the global control, bail out when disabled, run the DoS guard when a DoS
limit is set, then run the quota guard when the DoS guard did not reject
and the resolved limit is nonzero.  Returns `none` when the quota branch
needs `limit_window` and its resolution raises a TypeError. -/
def process_resource (p : Provider) (ckAttr : Option String) (gctl : ControlDict)
    (resourceCtl : Option ControlDict) (req : Request) (now : Int) (st : Store) :
    Option (RespContext × Store) :=
  let ctl := updateControl gctl
    (match resourceCtl with
     | some rc => rc
     | none => emptyOverride)
  if enabled ctl then
    let ck := client_key ckAttr ctl req
    let step1 : RespContext × Store :=
      if dos_limit ctl ≠ 0 then
        let r := dos_limit_reached p (dos_limit ctl) now st ck
        let resp : RespContext :=
          { rate_limit := some (dos_limit ctl)
            rate_limit_reached := some r.1.rate_limit_reached
            rate_limit_remaining := some r.1.rate_limit_remaining
            rate_limit_reset := some r.1.rate_limit_reset }
        if r.1.rate_limit_reached = true then
          ({ resp with rate_limit_description := some (dosDesc (dos_limit ctl))
                       complete := true }, r.2)
        else (resp, r.2)
      else ({}, st)
    let lim := limit ctl req
    if truthyB step1.1.rate_limit_reached = false ∧ lim ≠ 0 then
      match limit_window ctl with
      | none => none
      | some lw =>
        let r := rate_limit_reached p lw now step1.2 ck lim
        let resp : RespContext :=
          { step1.1 with
            rate_limit := some lim
            rate_limit_reached := some r.1.rate_limit_reached
            rate_limit_remaining := some r.1.rate_limit_remaining
            rate_limit_reset := some r.1.rate_limit_reset
            retry_after := some r.1.retry_after }
        if r.1.rate_limit_reached = true then
          some ({ resp with rate_limit_description := some (quotaDesc lim lw)
                            complete := true }, r.2)
        else some (resp, r.2)
    else some step1
  else some ({}, st)

/-- The observable outcome of `process_response`: the headers set on the
response, and `some description` when `HTTPTooManyRequests` is raised. -/
structure RespOutcome where
  headers : List (String × Option Int)
  raised : Option (Option String)
deriving DecidableEq

/-- `RateLimitMiddleware.process_response`: when enabled, set the three
X-RateLimit headers if a limit was recorded, and on a recorded rejection
set `Retry-After` from the recorded `retry_after` context value and raise
a 429 carrying the stamped description. -/
def process_response (ctl : ControlDict) (resp : RespContext) : RespOutcome :=
  if enabled ctl then
    let hdrs :=
      if truthyI resp.rate_limit then
        [("X-RateLimit-Limit", resp.rate_limit),
         ("X-RateLimit-Remaining", resp.rate_limit_remaining),
         ("X-RateLimit-Reset", resp.rate_limit_reset)]
      else []
    if resp.rate_limit_reached = some true then
      { headers := hdrs ++ [("Retry-After", resp.retry_after)]
        raised := some resp.rate_limit_description }
    else { headers := hdrs, raised := none }
  else { headers := [], raised := none }

/-- The client identification algorithm as worded by the specification
(section 4.2), for comparison with `client_key`: first address of the
forwarded chain if present and non empty, else the peer address; an
explicit identity attribute that is configured, present and non empty
overrides it; the path is appended exactly when the limit is not
global. -/
def identifySpec (forwarded_chain : List String) (connection_peer_address : String)
    (explicit_identity_configured : Bool) (explicit_identity_value : Option String)
    (path : String) (glob : Bool) : String :=
  let base :=
    match forwarded_chain with
    | [] => connection_peer_address
    | a :: _ => if a = "" then connection_peer_address else a
  let base :=
    if explicit_identity_configured then
      match explicit_identity_value with
      | none => base
      | some v => if v = "" then base else v
    else base
  if glob then base else base ++ path

/-- The store after `n` sequential quota guard evaluations for the same
key, starting from the empty store (a fresh window). -/
def quotaIter (p : Provider) (lw now : Int) (key : String) (lim : Int) : Nat → Store
  | 0 => emptyStore
  | Nat.succ n => (rate_limit_reached p lw now (quotaIter p lw now key lim n) key lim).2

/-- The decision dict of request number `n + 1` in that sequence. -/
def quotaDecision (p : Provider) (lw now : Int) (key : String) (lim : Int) (n : Nat) : RLR :=
  (rate_limit_reached p lw now (quotaIter p lw now key lim n) key lim).1

/-- Store effect of the quota guard, by branch. -/
theorem rlr_store_cases (p : Provider) (lw now : Int) (st : Store) (key : String) (lim : Int) :
    (rate_limit_reached p lw now st key lim).2 =
      if p.client_count st key = 0 then p.client_count_set st now lw key
      else if p.client_count st key + 1 > lim then st
      else p.client_count_incr st key := by
  simp only [rate_limit_reached]
  split
  · rfl
  · split <;> rfl

/-- Rejection flag of the quota guard, by branch. -/
theorem rlr_reached_cases (p : Provider) (lw now : Int) (st : Store) (key : String) (lim : Int) :
    (rate_limit_reached p lw now st key lim).1.rate_limit_reached =
      if p.client_count st key = 0 then false
      else if p.client_count st key + 1 > lim then true
      else false := by
  simp only [rate_limit_reached]
  split
  · rfl
  · split <;> rfl

/-- Store effect of the DoS guard, by branch. -/
theorem dlr_store_cases (p : Provider) (dosLimit now : Int) (st : Store) (key : String) :
    (dos_limit_reached p dosLimit now st key).2 =
      if p.dos_count st now key + 1 > dosLimit then st
      else p.dos_count_incr st now key := by
  simp only [dos_limit_reached]
  split <;> rfl

/-- Rejection flag of the DoS guard, by branch. -/
theorem dlr_reached_cases (p : Provider) (dosLimit now : Int) (st : Store) (key : String) :
    (dos_limit_reached p dosLimit now st key).1.rate_limit_reached =
      if p.dos_count st now key + 1 > dosLimit then true else false := by
  simp only [dos_limit_reached]
  split <;> rfl

/-- A string never equals itself followed by the expires suffix. -/
theorem ne_append_expires (s : String) : s ≠ s ++ "-expires" := by
  intro h
  have h2 := congrArg String.length h
  rw [String.congr_append] at h2
  cases s with
  | mk d =>
    have h9 : ("-expires".data).length = 8 := rfl
    simp only [String.mk_length, String.length, List.length_append, h9] at h2
    omega

/-- The redis quota counter reads 0 on the empty store. -/
theorem redis_count_empty (key : String) :
    redisProvider.client_count emptyStore key = 0 := rfl

/-- After `client_count_set`, the redis quota counter reads 1. -/
theorem redis_count_set (st : Store) (now lw : Int) (key : String) :
    redisProvider.client_count (redisProvider.client_count_set st now lw key) key = 1 := by
  simp [redisProvider, redisSetex]

/-- `client_count_incr` raises the redis quota counter by one. -/
theorem redis_count_incr (st : Store) (key : String) :
    redisProvider.client_count (redisProvider.client_count_incr st key) key =
      redisProvider.client_count st key + 1 := by
  simp [redisProvider, redisIncrby]

/-- The memcache quota counter reads 0 on the empty store. -/
theorem mem_count_empty (key : String) :
    memcacheProvider.client_count emptyStore key = 0 := rfl

/-- After `client_count_set`, the memcache quota counter reads 1. -/
theorem mem_count_set (st : Store) (now lw : Int) (key : String) :
    memcacheProvider.client_count (memcacheProvider.client_count_set st now lw key) key = 1 := by
  simp [memcacheProvider, memSet, ne_append_expires key]

/-- `client_count_incr` raises a nonzero memcache quota counter by one. -/
theorem mem_count_incr (st : Store) (key : String)
    (h : memcacheProvider.client_count st key ≠ 0) :
    memcacheProvider.client_count (memcacheProvider.client_count_incr st key) key =
      memcacheProvider.client_count st key + 1 := by
  cases hv : st.val key with
  | none => exact absurd (by simp [memcacheProvider, hv]) h
  | some v => simp [memcacheProvider, memIncr, hv]

/-- Within one window, the quota counter after `n` requests equals `n`
capped at the limit, for any provider whose counter operations behave as
set-to-one / increment / read-zero-when-empty. -/
theorem quota_count_inv (p : Provider) (lw now : Int) (key : String) (lim : Int)
    (hL : 0 < lim)
    (h0 : p.client_count emptyStore key = 0)
    (hset : ∀ st, p.client_count (p.client_count_set st now lw key) key = 1)
    (hincr : ∀ st, p.client_count st key ≠ 0 →
      p.client_count (p.client_count_incr st key) key = p.client_count st key + 1) :
    ∀ n : Nat, p.client_count (quotaIter p lw now key lim n) key =
      if ((n : Int)) ≤ lim then (n : Int) else lim := by
  intro n
  induction n with
  | zero =>
    rw [show quotaIter p lw now key lim 0 = emptyStore from rfl, h0]
    split <;> omega
  | succ n ih =>
    rw [show quotaIter p lw now key lim (n + 1) =
      (rate_limit_reached p lw now (quotaIter p lw now key lim n) key lim).2 from rfl,
      rlr_store_cases]
    by_cases hn : ((n : Int)) ≤ lim
    · rw [if_pos hn] at ih
      by_cases h1 : p.client_count (quotaIter p lw now key lim n) key = 0
      · rw [if_pos h1, hset]
        rw [h1] at ih
        split <;> omega
      · rw [if_neg h1]
        by_cases h2 : p.client_count (quotaIter p lw now key lim n) key + 1 > lim
        · rw [if_pos h2, ih]
          rw [ih] at h2
          split <;> omega
        · rw [if_neg h2, hincr _ h1, ih]
          rw [ih] at h2
          split <;> omega
    · rw [if_neg hn] at ih
      have h1 : ¬ p.client_count (quotaIter p lw now key lim n) key = 0 := by omega
      have h2 : p.client_count (quotaIter p lw now key lim n) key + 1 > lim := by omega
      rw [if_neg h1, if_pos h2, ih]
      split <;> omega

/-- Within one window, request `n + 1` is rejected exactly when `n`
requests were already seen and `n` is at least the limit. -/
theorem quota_decision_char (p : Provider) (lw now : Int) (key : String) (lim : Int)
    (hL : 0 < lim)
    (h0 : p.client_count emptyStore key = 0)
    (hset : ∀ st, p.client_count (p.client_count_set st now lw key) key = 1)
    (hincr : ∀ st, p.client_count st key ≠ 0 →
      p.client_count (p.client_count_incr st key) key = p.client_count st key + 1)
    (n : Nat) :
    (quotaDecision p lw now key lim n).rate_limit_reached = true ↔ lim ≤ (n : Int) := by
  have hinv := quota_count_inv p lw now key lim hL h0 hset hincr n
  unfold quotaDecision
  rw [rlr_reached_cases, hinv]
  by_cases hn : ((n : Int)) ≤ lim
  · rw [if_pos hn]
    by_cases h1 : ((n : Int)) = 0
    · rw [if_pos h1]
      simp only [Bool.false_eq_true, false_iff]
      omega
    · rw [if_neg h1]
      by_cases h2 : ((n : Int)) + 1 > lim
      · rw [if_pos h2]
        simp only [true_iff]
        omega
      · rw [if_neg h2]
        simp only [Bool.false_eq_true, false_iff]
        omega
  · rw [if_neg hn]
    have h1 : ¬ lim = 0 := by omega
    have h2 : lim + 1 > lim := by omega
    rw [if_neg h1, if_pos h2]
    simp only [true_iff]
    omega

/-- C1: for every quota limit greater than zero, a sequence of quota
guard evaluations for the same client key within a single window admits
exactly the first `lim` requests and rejects every later one, for both
backend providers; equivalently, an observed count equal to the limit at
the increment check is a rejection, for any provider. -/
theorem c1_quota_exact_window_admission (lw now lim : Int) (key : String) (n : Nat)
    (hL : 0 < lim) :
    (((n : Int) < lim →
        (quotaDecision redisProvider lw now key lim n).rate_limit_reached = false
        ∧ (quotaDecision memcacheProvider lw now key lim n).rate_limit_reached = false)
      ∧ (lim ≤ (n : Int) →
        (quotaDecision redisProvider lw now key lim n).rate_limit_reached = true
        ∧ (quotaDecision memcacheProvider lw now key lim n).rate_limit_reached = true))
    ∧ (∀ (p : Provider) (st : Store), p.client_count st key = lim →
        (rate_limit_reached p lw now st key lim).1.rate_limit_reached = true) := by
  have hr := quota_decision_char redisProvider lw now key lim hL (redis_count_empty key)
    (fun st => redis_count_set st now lw key) (fun st _ => redis_count_incr st key) n
  have hm := quota_decision_char memcacheProvider lw now key lim hL (mem_count_empty key)
    (fun st => mem_count_set st now lw key) (fun st h => mem_count_incr st key h) n
  refine ⟨⟨fun hlt => ⟨?_, ?_⟩, fun hge => ⟨hr.mpr hge, hm.mpr hge⟩⟩, fun p st hc => ?_⟩
  · have hne : ¬ ((quotaDecision redisProvider lw now key lim n).rate_limit_reached = true) :=
      fun h => absurd (hr.mp h) (by omega)
    simpa using hne
  · have hne : ¬ ((quotaDecision memcacheProvider lw now key lim n).rate_limit_reached = true) :=
      fun h => absurd (hm.mp h) (by omega)
    simpa using hne
  · rw [rlr_reached_cases, hc, if_neg (by omega), if_pos (by omega)]

/-- C1 witness: with limit 2, request number 6 of a window is rejected
on both providers. -/
theorem c1_witness :
    (quotaDecision redisProvider 30 100 "c" 2 5).rate_limit_reached = true
    ∧ (quotaDecision memcacheProvider 30 100 "c" 2 5).rate_limit_reached = true := by
  have h := c1_quota_exact_window_admission 30 100 2 "c" 5 (by decide)
  exact h.1.2 (by decide)

/-- C2: for every positive DoS limit and current bucket count read from
the store, the DoS guard rejects without incrementing when the count plus
one exceeds the limit, reporting `remaining = dosLimit - count`, and
otherwise admits, increments the bucket and reports
`remaining = dosLimit - count - 1`; the reset time is always one second
from now. -/
theorem c2_dos_guard_behavior (p : Provider) (dosLimit now : Int) (st : Store)
    (key : String) (_hD : 0 < dosLimit) :
    (p.dos_count st now key + 1 > dosLimit →
      dos_limit_reached p dosLimit now st key =
        ({ rate_limit_reached := true
           rate_limit_remaining := dosLimit - p.dos_count st now key
           rate_limit_reset := now + 1 }, st))
    ∧ (¬ p.dos_count st now key + 1 > dosLimit →
      dos_limit_reached p dosLimit now st key =
        ({ rate_limit_reached := false
           rate_limit_remaining := dosLimit - p.dos_count st now key - 1
           rate_limit_reset := now + 1 }, p.dos_count_incr st now key)) := by
  constructor
  · intro h
    simp only [dos_limit_reached, if_pos h]
  · intro h
    simp only [dos_limit_reached, if_neg h]

/-- C2 witness: DoS limit 3 on an empty store admits and increments. -/
theorem c2_witness :
    dos_limit_reached redisProvider 3 100 emptyStore "c" =
      ({ rate_limit_reached := false
         rate_limit_remaining := 3 - redisProvider.dos_count emptyStore 100 "c" - 1
         rate_limit_reset := 101 }, redisProvider.dos_count_incr emptyStore 100 "c") :=
  (c2_dos_guard_behavior redisProvider 3 100 emptyStore "c" (by decide)).2 (by decide)

/-- C4: a control whose three limits all resolve to zero is disabled no
matter what `enabled` was configured to, and when any limit is nonzero
the configured `enabled` value is returned unchanged. -/
theorem c4_enabled_resolution (d : ControlDict) (e : Bool)
    (he : d.enabled = some (some e)) :
    (dos_limit d = 0 ∧ authenticated_limit d = 0 ∧ unauthenticated_limit d = 0 →
      enabled d = false)
    ∧ (¬ (dos_limit d = 0 ∧ authenticated_limit d = 0 ∧ unauthenticated_limit d = 0) →
      enabled d = e) := by
  constructor
  · intro h
    cases e <;> simp [enabled, dget, he, h.1, h.2.1, h.2.2]
  · intro h
    cases e <;> simp [enabled, dget, he]
    tauto

/-- C4 witness: an explicitly enabled control with all limits zero is
disabled, and the same control with a nonzero DoS limit is enabled. -/
theorem c4_witness :
    enabled { enabled := some (some true), authenticated_limit := some none
              dos_limit := some none, global_limit := some (some true)
              limit_window := some (some 30), unauthenticated_limit := some none } = false
    ∧ enabled { enabled := some (some true), authenticated_limit := some none
                dos_limit := some (some 5), global_limit := some (some true)
                limit_window := some (some 30), unauthenticated_limit := some none } = true := by
  constructor
  · exact (c4_enabled_resolution _ true rfl).1 (by decide)
  · exact (c4_enabled_resolution _ true rfl).2 (by decide)

/-- C10: when the observed quota count is positive and the increment
check fails, the quota guard returns the store untouched, so a rejected
request consumes no quota and extends no window, for any provider. -/
theorem c10_reject_no_store_write (p : Provider) (lw now : Int) (st : Store)
    (key : String) (lim : Int)
    (h0 : 0 < p.client_count st key)
    (hlim : p.client_count st key + 1 > lim) :
    (rate_limit_reached p lw now st key lim).2 = st := by
  rw [rlr_store_cases, if_neg (by omega), if_pos hlim]

/-- C10 witness: a counter already at the limit is left untouched. -/
theorem c10_witness :
    (rate_limit_reached redisProvider 30 100
      { val := fun k => if k = "c" then some 2 else none, exp := fun _ => none }
      "c" 2).2 =
      { val := fun k => if k = "c" then some 2 else none, exp := fun _ => none } :=
  c10_reject_no_store_write redisProvider 30 100
    { val := fun k => if k = "c" then some 2 else none, exp := fun _ => none }
    "c" 2 (by decide) (by decide)

/-- C5 counterexample: on an empty store the redis provider does not
create the DoS bucket via set-with-expiry value 0 and TTL 1 before
incrementing; the claimed procedure leaves expiry `now + 1` while the
redis code leaves expiry `now + 5`. -/
theorem c5_counterexample :
    (redisProvider.dos_count_incr emptyStore 100 "c").exp (dosKey "c" 100) = some 105
    ∧ (memIncr (memSet emptyStore 100 (dosKey "c" 100) 0 1) (dosKey "c" 100) 1).exp
        (dosKey "c" 100) = some 101
    ∧ (105 : Int) ≠ 101 := by
  refine ⟨?_, ?_, by decide⟩
  · simp [redisProvider, redisExpire, redisIncrby, emptyStore]
  · simp [memIncr, memSet, emptyStore]

/-- C5 amended: when the per second bucket is absent, the memcache
provider creates it via set-with-expiry value 0 and TTL 1 second and then
increments it, leaving value 1 with expiry one second away, while the
redis provider increments directly (implicitly creating the bucket) and
then sets a five second expiry. -/
theorem c5_amended_dos_incr (st : Store) (now : Int) (key : String)
    (habs : st.val (dosKey key now) = none) :
    ((memcacheProvider.dos_count_incr st now key).val (dosKey key now) = some 1
      ∧ (memcacheProvider.dos_count_incr st now key).exp (dosKey key now) = some (now + 1))
    ∧ ((redisProvider.dos_count_incr st now key).val (dosKey key now) = some 1
      ∧ (redisProvider.dos_count_incr st now key).exp (dosKey key now) = some (now + 5)) := by
  refine ⟨⟨?_, ?_⟩, ?_, ?_⟩ <;>
    simp [memcacheProvider, redisProvider, memIncr, memSet, redisExpire, redisIncrby, habs]

/-- C5 witness for the amended statement, on the empty store. -/
theorem c5_amended_witness :
    ((memcacheProvider.dos_count_incr emptyStore 100 "c").val (dosKey "c" 100) = some 1
      ∧ (memcacheProvider.dos_count_incr emptyStore 100 "c").exp (dosKey "c" 100) = some 101)
    ∧ ((redisProvider.dos_count_incr emptyStore 100 "c").val (dosKey "c" 100) = some 1
      ∧ (redisProvider.dos_count_incr emptyStore 100 "c").exp (dosKey "c" 100) = some 105) :=
  c5_amended_dos_incr emptyStore 100 "c" rfl

/-- C7 counterexample: with no TTL information stored for the key, the
memcache provider resolves the reset time to 0 (the epoch), not to the
current time 1000. -/
theorem c7_counterexample :
    memcacheProvider.client_key_expires emptyStore 1000 "c" = 0
    ∧ (0 : Int) ≠ 1000 := by
  constructor
  · simp [memcacheProvider, emptyStore]
  · decide

/-- C7 amended: the quota reset time is the absolute expiry reconstructed
from the store.  The redis provider returns the stored expiry through the
TTL query and falls back to the current time when the key is absent or
carries no expiry; the memcache provider returns the auxiliary expires
entry and falls back to 0, not to the current time, when that entry is
absent. -/
theorem c7_reset_reconstruction (st : Store) (now : Int) (key : String) :
    (∀ e, st.exp key = some e → (st.val key).isSome = true →
      e - now ≠ -1 → e - now ≠ -2 →
      redisProvider.client_key_expires st now key = e)
    ∧ (st.val key = none → redisProvider.client_key_expires st now key = now)
    ∧ ((st.val key).isSome = true → st.exp key = none →
      redisProvider.client_key_expires st now key = now)
    ∧ (∀ e, st.val (key ++ "-expires") = some e →
      memcacheProvider.client_key_expires st now key = e)
    ∧ (st.val (key ++ "-expires") = none →
      memcacheProvider.client_key_expires st now key = 0) := by
  refine ⟨?_, ?_, ?_, ?_, ?_⟩
  · intro e he hv h1 h2
    rcases Option.isSome_iff_exists.mp hv with ⟨v, hv'⟩
    simp only [redisProvider, redisTtl, hv', he]
    rw [if_neg (by tauto)]
    omega
  · intro hv
    simp [redisProvider, redisTtl, hv]
  · intro hv he
    rcases Option.isSome_iff_exists.mp hv with ⟨v, hv'⟩
    simp [redisProvider, redisTtl, hv', he]
  · intro e he
    simp [memcacheProvider, he]
  · intro he
    simp [memcacheProvider, he]

/-- C7 witness: a live redis counter expiring at 160 reports 160; a
memcache counter whose auxiliary entry reads 160 reports 160; the
fallbacks report the current time for redis and 0 for memcache. -/
theorem c7_witness :
    redisProvider.client_key_expires
      { val := fun k => if k = "c" then some 1 else none
        exp := fun k => if k = "c" then some 160 else none } 100 "c" = 160
    ∧ redisProvider.client_key_expires emptyStore 100 "c" = 100
    ∧ memcacheProvider.client_key_expires
        { val := fun k => if k = "c-expires" then some 160 else none
          exp := fun _ => none } 100 "c" = 160 := by
  refine ⟨?_, ?_, ?_⟩
  · exact (c7_reset_reconstruction _ 100 "c").1 160 (by decide) (by decide)
      (by decide) (by decide)
  · exact (c7_reset_reconstruction _ 100 "c").2.1 rfl
  · exact (c7_reset_reconstruction _ 100 "c").2.2.2.1 160 (by decide)

/-- C8 counterexample: a route override that stores a null value under
the limit_window key makes resolution raise a TypeError (modelled as
`none`) instead of flooring to 15. -/
theorem c8_counterexample :
    limit_window (updateControl defaultControl
      { enabled := none, authenticated_limit := none, dos_limit := none
        global_limit := none, limit_window := some none
        unauthenticated_limit := none }) = none
    ∧ (none : Option Int) ≠ some 15 := by
  constructor
  · rfl
  · decide

/-- C8 amended: the window defaults to 30 minutes when the route override
does not supply the key, floors to 15 when the configured value is zero,
and fails (TypeError on `int(None)`) when the key is supplied with a null
value. -/
theorem c8_limit_window_resolution (ov : ControlDict) :
    (ov.limit_window = none →
      limit_window (updateControl defaultControl ov) = some 30)
    ∧ (ov.limit_window = some (some 0) →
      limit_window (updateControl defaultControl ov) = some 15)
    ∧ (ov.limit_window = some none →
      limit_window (updateControl defaultControl ov) = none) := by
  refine ⟨?_, ?_, ?_⟩ <;> intro h <;>
    simp [limit_window, updateControl, updKey, defaultControl, dget, h]

/-- C8 witness: the empty override resolves to 30, a zero override
resolves to 15, and a null override fails. -/
theorem c8_witness :
    limit_window (updateControl defaultControl emptyOverride) = some 30
    ∧ limit_window (updateControl defaultControl
        { emptyOverride with limit_window := some (some 0) }) = some 15
    ∧ limit_window (updateControl defaultControl
        { emptyOverride with limit_window := some none }) = none := by
  refine ⟨?_, ?_, ?_⟩
  · exact (c8_limit_window_resolution emptyOverride).1 rfl
  · exact (c8_limit_window_resolution _).2.1 rfl
  · exact (c8_limit_window_resolution _).2.2 rfl

/-- C9: the client key computation agrees with the specified identify
algorithm on all inputs: first non empty entry of the forwarded chain
else peer address, overridden by a configured, present and non empty
explicit identity value, with the path appended exactly when the limit is
not global; both sides are pure functions of these inputs.  The one
proviso is a non degenerate configuration: the configured attribute name
is not the empty string (an empty name is falsy in the source and
disables the lookup, i.e. counts as not configured). -/
theorem c9_client_key_matches_spec (ckAttr : Option String) (d : ControlDict) (req : Request)
    (hattr : ckAttr ≠ some "") :
    client_key ckAttr d req =
      identifySpec req.access_route req.remote_addr ckAttr.isSome req.ctxClientKey
        req.path (global_limit d) := by
  obtain ⟨ar, ra, pa, ck, au⟩ := req
  cases ckAttr with
  | none => simp [client_key, identifySpec]
  | some nm =>
    have hnm : nm ≠ "" := fun h => hattr (by rw [h])
    cases ck <;> simp [client_key, identifySpec, hnm]

/-- C9 witness: a request behind a forwarding proxy, with an explicit
identity on the context and a per route limit. -/
theorem c9_witness :
    client_key (some "user_id")
      { defaultControl with global_limit := some (some false) }
      { access_route := ["10.0.0.9", "10.0.0.1"], remote_addr := "127.0.0.1"
        path := "/middleware", ctxClientKey := some "user-42", ctxAuthTruthy := true } =
      identifySpec ["10.0.0.9", "10.0.0.1"] "127.0.0.1" true (some "user-42")
        "/middleware"
        (global_limit { defaultControl with global_limit := some (some false) }) :=
  c9_client_key_matches_spec (some "user_id")
    { defaultControl with global_limit := some (some false) }
    { access_route := ["10.0.0.9", "10.0.0.1"], remote_addr := "127.0.0.1"
      path := "/middleware", ctxClientKey := some "user-42", ctxAuthTruthy := true }
    (by decide)

/-- Merging the empty route override changes nothing. -/
theorem updateControl_empty (d : ControlDict) : updateControl d emptyOverride = d := rfl

/-- `process_resource` when both guards are disabled: nothing recorded,
store untouched. -/
theorem pr_both_skipped (p : Provider) (ckAttr : Option String) (ctl : ControlDict)
    (req : Request) (now : Int) (st : Store)
    (hen : enabled ctl = true) (hD : dos_limit ctl = 0) (hL : limit ctl req = 0) :
    process_resource p ckAttr ctl none req now st = some ({}, st) := by
  simp [process_resource, updateControl_empty, hen, hD, hL, truthyB]

/-- `process_resource` when the DoS limit is 0 and the quota limit is
nonzero: the quota guard runs directly on the incoming store. -/
theorem pr_quota_only (p : Provider) (ckAttr : Option String) (ctl : ControlDict)
    (req : Request) (now lw : Int) (st : Store)
    (hen : enabled ctl = true) (hD : dos_limit ctl = 0) (hL : limit ctl req ≠ 0)
    (hlw : limit_window ctl = some lw) :
    process_resource p ckAttr ctl none req now st =
      some
        (if (rate_limit_reached p lw now st (client_key ckAttr ctl req)
              (limit ctl req)).1.rate_limit_reached = true then
          { rate_limit := some (limit ctl req)
            rate_limit_reached := some true
            rate_limit_remaining := some (rate_limit_reached p lw now st
              (client_key ckAttr ctl req) (limit ctl req)).1.rate_limit_remaining
            rate_limit_reset := some (rate_limit_reached p lw now st
              (client_key ckAttr ctl req) (limit ctl req)).1.rate_limit_reset
            retry_after := some (rate_limit_reached p lw now st
              (client_key ckAttr ctl req) (limit ctl req)).1.retry_after
            rate_limit_description := some (quotaDesc (limit ctl req) lw)
            complete := true }
        else
          { rate_limit := some (limit ctl req)
            rate_limit_reached := some (rate_limit_reached p lw now st
              (client_key ckAttr ctl req) (limit ctl req)).1.rate_limit_reached
            rate_limit_remaining := some (rate_limit_reached p lw now st
              (client_key ckAttr ctl req) (limit ctl req)).1.rate_limit_remaining
            rate_limit_reset := some (rate_limit_reached p lw now st
              (client_key ckAttr ctl req) (limit ctl req)).1.rate_limit_reset
            retry_after := some (rate_limit_reached p lw now st
              (client_key ckAttr ctl req) (limit ctl req)).1.retry_after
            rate_limit_description := none
            complete := false },
        (rate_limit_reached p lw now st (client_key ckAttr ctl req)
          (limit ctl req)).2) := by
  simp only [process_resource, updateControl_empty, hen, hD, hlw, truthyB, if_true]
  simp [truthyB, hL]
  split <;> simp_all

/-- `process_resource` when the DoS guard rejects: the DoS decision is
recorded with the DoS description, the quota guard is skipped, and no
retry_after is recorded. -/
theorem pr_dos_rejected (p : Provider) (ckAttr : Option String) (ctl : ControlDict)
    (req : Request) (now : Int) (st : Store)
    (hen : enabled ctl = true) (hD : dos_limit ctl ≠ 0)
    (hr : (dos_limit_reached p (dos_limit ctl) now st
      (client_key ckAttr ctl req)).1.rate_limit_reached = true) :
    process_resource p ckAttr ctl none req now st =
      some
        ({ rate_limit := some (dos_limit ctl)
           rate_limit_reached := some true
           rate_limit_remaining := some (dos_limit_reached p (dos_limit ctl) now st
             (client_key ckAttr ctl req)).1.rate_limit_remaining
           rate_limit_reset := some (dos_limit_reached p (dos_limit ctl) now st
             (client_key ckAttr ctl req)).1.rate_limit_reset
           retry_after := none
           rate_limit_description := some (dosDesc (dos_limit ctl))
           complete := true },
        (dos_limit_reached p (dos_limit ctl) now st
          (client_key ckAttr ctl req)).2) := by
  simp [process_resource, updateControl_empty, hen, hD, hr, truthyB]

/-- `process_resource` when the DoS guard admits and the quota limit is
0: only the DoS decision is recorded. -/
theorem pr_dos_ok_skip_quota (p : Provider) (ckAttr : Option String) (ctl : ControlDict)
    (req : Request) (now : Int) (st : Store)
    (hen : enabled ctl = true) (hD : dos_limit ctl ≠ 0)
    (hr : (dos_limit_reached p (dos_limit ctl) now st
      (client_key ckAttr ctl req)).1.rate_limit_reached = false)
    (hL : limit ctl req = 0) :
    process_resource p ckAttr ctl none req now st =
      some
        ({ rate_limit := some (dos_limit ctl)
           rate_limit_reached := some false
           rate_limit_remaining := some (dos_limit_reached p (dos_limit ctl) now st
             (client_key ckAttr ctl req)).1.rate_limit_remaining
           rate_limit_reset := some (dos_limit_reached p (dos_limit ctl) now st
             (client_key ckAttr ctl req)).1.rate_limit_reset
           retry_after := none
           rate_limit_description := none
           complete := false },
        (dos_limit_reached p (dos_limit ctl) now st
          (client_key ckAttr ctl req)).2) := by
  simp [process_resource, updateControl_empty, hen, hD, hr, hL, truthyB]

/-- `process_resource` when the DoS guard admits and the quota limit is
nonzero: the quota guard runs on the store left by the DoS guard and its
decision overwrites the recorded fields. -/
theorem pr_dos_ok_quota (p : Provider) (ckAttr : Option String) (ctl : ControlDict)
    (req : Request) (now lw : Int) (st : Store)
    (hen : enabled ctl = true) (hD : dos_limit ctl ≠ 0)
    (hr : (dos_limit_reached p (dos_limit ctl) now st
      (client_key ckAttr ctl req)).1.rate_limit_reached = false)
    (hL : limit ctl req ≠ 0) (hlw : limit_window ctl = some lw) :
    process_resource p ckAttr ctl none req now st =
      some
        (if (rate_limit_reached p lw now
              (dos_limit_reached p (dos_limit ctl) now st (client_key ckAttr ctl req)).2
              (client_key ckAttr ctl req) (limit ctl req)).1.rate_limit_reached = true then
          { rate_limit := some (limit ctl req)
            rate_limit_reached := some true
            rate_limit_remaining := some (rate_limit_reached p lw now
              (dos_limit_reached p (dos_limit ctl) now st (client_key ckAttr ctl req)).2
              (client_key ckAttr ctl req) (limit ctl req)).1.rate_limit_remaining
            rate_limit_reset := some (rate_limit_reached p lw now
              (dos_limit_reached p (dos_limit ctl) now st (client_key ckAttr ctl req)).2
              (client_key ckAttr ctl req) (limit ctl req)).1.rate_limit_reset
            retry_after := some (rate_limit_reached p lw now
              (dos_limit_reached p (dos_limit ctl) now st (client_key ckAttr ctl req)).2
              (client_key ckAttr ctl req) (limit ctl req)).1.retry_after
            rate_limit_description := some (quotaDesc (limit ctl req) lw)
            complete := true }
        else
          { rate_limit := some (limit ctl req)
            rate_limit_reached := some (rate_limit_reached p lw now
              (dos_limit_reached p (dos_limit ctl) now st (client_key ckAttr ctl req)).2
              (client_key ckAttr ctl req) (limit ctl req)).1.rate_limit_reached
            rate_limit_remaining := some (rate_limit_reached p lw now
              (dos_limit_reached p (dos_limit ctl) now st (client_key ckAttr ctl req)).2
              (client_key ckAttr ctl req) (limit ctl req)).1.rate_limit_remaining
            rate_limit_reset := some (rate_limit_reached p lw now
              (dos_limit_reached p (dos_limit ctl) now st (client_key ckAttr ctl req)).2
              (client_key ckAttr ctl req) (limit ctl req)).1.rate_limit_reset
            retry_after := some (rate_limit_reached p lw now
              (dos_limit_reached p (dos_limit ctl) now st (client_key ckAttr ctl req)).2
              (client_key ckAttr ctl req) (limit ctl req)).1.retry_after
            rate_limit_description := none
            complete := false },
        (rate_limit_reached p lw now
          (dos_limit_reached p (dos_limit ctl) now st (client_key ckAttr ctl req)).2
          (client_key ckAttr ctl req) (limit ctl req)).2) := by
  simp only [process_resource, updateControl_empty, hen, hD, hr, hlw, truthyB, if_true]
  simp [truthyB, hL, hr]
  split <;> simp_all
  split <;> simp_all

/-- C3: with rate limiting enabled, the DoS guard runs before the quota
guard and hands it the updated store; the DoS guard is skipped entirely
when the DoS limit is 0 (the quota guard then sees the untouched store),
and the quota guard is skipped entirely when the resolved limit is 0 or
the DoS guard already rejected; a DoS rejection is recorded as the final
decision. -/
theorem c3_dos_first_quota_conditional (p : Provider) (ckAttr : Option String)
    (ctl : ControlDict) (req : Request) (now lw : Int) (st : Store)
    (hen : enabled ctl = true) (hlw : limit_window ctl = some lw) :
    (Option.map Prod.snd (process_resource p ckAttr ctl none req now st) =
      some
        (if dos_limit ctl = 0 then
          (if limit ctl req = 0 then st
           else (rate_limit_reached p lw now st (client_key ckAttr ctl req)
             (limit ctl req)).2)
         else
          (if (dos_limit_reached p (dos_limit ctl) now st
                (client_key ckAttr ctl req)).1.rate_limit_reached = true
              ∨ limit ctl req = 0 then
            (dos_limit_reached p (dos_limit ctl) now st (client_key ckAttr ctl req)).2
           else
            (rate_limit_reached p lw now
              (dos_limit_reached p (dos_limit ctl) now st (client_key ckAttr ctl req)).2
              (client_key ckAttr ctl req) (limit ctl req)).2)))
    ∧ (dos_limit ctl = 0 → limit ctl req = 0 →
        process_resource p ckAttr ctl none req now st = some ({}, st))
    ∧ (dos_limit ctl ≠ 0 →
        (dos_limit_reached p (dos_limit ctl) now st
          (client_key ckAttr ctl req)).1.rate_limit_reached = true →
        Option.map (fun x => x.1.rate_limit_reached)
          (process_resource p ckAttr ctl none req now st) = some (some true)) := by
  refine ⟨?_, fun hD hL => pr_both_skipped p ckAttr ctl req now st hen hD hL,
    fun hD hr => ?_⟩
  · by_cases hD : dos_limit ctl = 0
    · by_cases hL : limit ctl req = 0
      · rw [pr_both_skipped p ckAttr ctl req now st hen hD hL]
        simp [hD, hL]
      · rw [pr_quota_only p ckAttr ctl req now lw st hen hD hL hlw]
        split <;> simp [hD, hL]
    · by_cases hr : (dos_limit_reached p (dos_limit ctl) now st
        (client_key ckAttr ctl req)).1.rate_limit_reached = true
      · rw [pr_dos_rejected p ckAttr ctl req now st hen hD hr]
        simp [hD, hr]
      · have hrf : (dos_limit_reached p (dos_limit ctl) now st
          (client_key ckAttr ctl req)).1.rate_limit_reached = false := by
          simpa using hr
        by_cases hL : limit ctl req = 0
        · rw [pr_dos_ok_skip_quota p ckAttr ctl req now st hen hD hrf hL]
          simp [hD, hr, hL]
        · rw [pr_dos_ok_quota p ckAttr ctl req now lw st hen hD hrf hL hlw]
          split <;> simp [hD, hr, hL]
  · rw [pr_dos_rejected p ckAttr ctl req now st hen hD hr]
    simp

/-- A concrete control for the C3 witness: DoS limit 2, unauthenticated
limit 3. -/
def c3ctl : ControlDict :=
  { enabled := some (some true), authenticated_limit := some none
    dos_limit := some (some 2), global_limit := some (some true)
    limit_window := some (some 30), unauthenticated_limit := some (some 3) }

/-- A concrete request for the C3 witness. -/
def c3req : Request :=
  { access_route := [], remote_addr := "1.2.3.4", path := "/a"
    ctxClientKey := none, ctxAuthTruthy := false }

/-- A concrete store for the C3 witness: the DoS bucket already holds 2
hits this second. -/
def c3st : Store :=
  { val := fun k => if k = dosKey "1.2.3.4" 100 then some 2 else none
    exp := fun _ => none }

/-- C3 witness: with the bucket full, the pipeline records a DoS
rejection. -/
theorem c3_witness :
    Option.map (fun x => x.1.rate_limit_reached)
      (process_resource redisProvider none c3ctl none c3req 100 c3st) = some (some true) :=
  (c3_dos_first_quota_conditional redisProvider none c3ctl c3req 100 30 c3st
    (by decide) rfl).2.2 (by decide) (by decide)

/-- A concrete control for C6: DoS limit 1, no quota limits. -/
def c6ctl : ControlDict :=
  { enabled := some (some true), authenticated_limit := some none
    dos_limit := some (some 1), global_limit := some (some true)
    limit_window := some (some 30), unauthenticated_limit := some none }

/-- A concrete request for C6. -/
def c6req : Request :=
  { access_route := ["9.9.9.9"], remote_addr := "r", path := "/p"
    ctxClientKey := none, ctxAuthTruthy := false }

/-- A concrete store for C6: the DoS bucket already holds 1 hit. -/
def c6st : Store :=
  { val := fun k => if k = dosKey "9.9.9.9" 100 then some 1 else none
    exp := fun _ => none }

/-- The response context recorded by `process_resource` on the C6 run. -/
def c6resp : RespContext :=
  { rate_limit := some 1, rate_limit_reached := some true
    rate_limit_remaining := some 0, rate_limit_reset := some 101
    retry_after := none, rate_limit_description := some (dosDesc 1)
    complete := true }

/-- C6 counterexample: on a DoS path rejection the outbound hook sets the
Retry-After header to the absent recorded value (`None`), not to 1. -/
theorem c6_counterexample :
    Option.map (fun x => (process_response c6ctl x.1).headers)
      (process_resource redisProvider none c6ctl none c6req 100 c6st) =
      some [("X-RateLimit-Limit", some 1), ("X-RateLimit-Remaining", some 0),
            ("X-RateLimit-Reset", some 101), ("Retry-After", (none : Option Int))]
    ∧ ("Retry-After", (some 1 : Option Int)) ∉
        [(("X-RateLimit-Limit" : String), (some 1 : Option Int)),
         ("X-RateLimit-Remaining", some 0),
         ("X-RateLimit-Reset", some 101), ("Retry-After", none)] := by
  constructor
  · rfl
  · decide

/-- C6 amended: on every recorded rejection the outbound hook raises a
429 with the stamped description and attaches a Retry-After header
carrying the recorded retry_after value, even though the route handler
may already have produced a response (the hook runs unconditionally on
the way out); that recorded value is the quota guard value when the quota
path rejected, but nothing is recorded on a DoS path rejection, so the
header carries the absent value rather than 1. -/
theorem c6_amended_retry_after (ctl : ControlDict) (resp : RespContext)
    (hen : enabled ctl = true) (hr : resp.rate_limit_reached = some true) :
    ((process_response ctl resp).raised = some resp.rate_limit_description
      ∧ ("Retry-After", resp.retry_after) ∈ (process_response ctl resp).headers)
    ∧ (∀ (p : Provider) (ckAttr : Option String) (req : Request) (now : Int)
        (st st2 : Store) (resp2 : RespContext),
        process_resource p ckAttr ctl none req now st = some (resp2, st2) →
        dos_limit ctl ≠ 0 →
        (dos_limit_reached p (dos_limit ctl) now st
          (client_key ckAttr ctl req)).1.rate_limit_reached = true →
        resp2.retry_after = none)
    ∧ (∀ (p : Provider) (ckAttr : Option String) (req : Request) (now lw : Int)
        (st st2 : Store) (resp2 : RespContext),
        process_resource p ckAttr ctl none req now st = some (resp2, st2) →
        limit_window ctl = some lw →
        dos_limit ctl = 0 → limit ctl req ≠ 0 →
        resp2.retry_after =
          some (rate_limit_reached p lw now st (client_key ckAttr ctl req)
            (limit ctl req)).1.retry_after)
    ∧ (∀ (p : Provider) (ckAttr : Option String) (req : Request) (now lw : Int)
        (st st2 : Store) (resp2 : RespContext),
        process_resource p ckAttr ctl none req now st = some (resp2, st2) →
        limit_window ctl = some lw →
        dos_limit ctl ≠ 0 →
        (dos_limit_reached p (dos_limit ctl) now st
          (client_key ckAttr ctl req)).1.rate_limit_reached = false →
        limit ctl req ≠ 0 →
        resp2.retry_after =
          some (rate_limit_reached p lw now
            (dos_limit_reached p (dos_limit ctl) now st (client_key ckAttr ctl req)).2
            (client_key ckAttr ctl req) (limit ctl req)).1.retry_after) := by
  refine ⟨⟨?_, ?_⟩, ?_, ?_, ?_⟩
  · simp [process_response, hen, hr]
  · simp [process_response, hen, hr]
  · intro p ckAttr req now st st2 resp2 h hD hrj
    rw [pr_dos_rejected p ckAttr ctl req now st hen hD hrj] at h
    simp only [Option.some.injEq, Prod.mk.injEq] at h
    rw [← h.1]
  · intro p ckAttr req now lw st st2 resp2 h hlw hD hL
    rw [pr_quota_only p ckAttr ctl req now lw st hen hD hL hlw] at h
    simp only [Option.some.injEq, Prod.mk.injEq] at h
    rw [← h.1]
    split <;> rfl
  · intro p ckAttr req now lw st st2 resp2 h hlw hD hrf hL
    rw [pr_dos_ok_quota p ckAttr ctl req now lw st hen hD hrf hL hlw] at h
    simp only [Option.some.injEq, Prod.mk.injEq] at h
    rw [← h.1]
    split <;> rfl

/-- C6 witness: the amended behavior on the concrete C6 run. -/
theorem c6_amended_witness :
    ((process_response c6ctl c6resp).raised = some c6resp.rate_limit_description
      ∧ ("Retry-After", c6resp.retry_after) ∈ (process_response c6ctl c6resp).headers)
    ∧ c6resp.retry_after = none := by
  have h := c6_amended_retry_after c6ctl c6resp (by decide) (by decide)
  exact ⟨h.1, h.2.1 redisProvider none c6req 100 c6st c6st c6resp rfl
    (by decide) (by decide)⟩
